import Mathlib

/-
Verification of the queue-abstraction layer of the MessageQueue-NestJS
repository: a shallow embedding of the four queue adapters (SQS, RabbitMQ,
composite, mock) and of the provider-selection factory, with theorems about
their behaviour.

Conventions of the embedding:
- TypeScript values that may be undefined at runtime are Option values.
- JavaScript truthiness tests on strings and numbers are modelled by the
  jsTruthyStr / jsOrNat / jsOrStr helpers (empty string and zero are falsy).
- Promise-returning methods that may reject are functions into Except String.
- Network backends (the SQS client, the AMQP channel) are parameters: each
  adapter method that talks to a backend takes the backend outcome or the
  channel contents as an explicit argument, so the adapter logic itself is a
  pure function translated line by line from the source.
- JSON.parse is a parameter of type String to Option Value: it either returns
  a structured value or fails, which is all the adapter code observes of it.
-/

namespace MessageQueue

/-- A JavaScript runtime value, as far as the queue layer observes it:
message bodies and attribute values. -/
inductive Value where
  | null : Value
  | undefinedVal : Value
  | bool : Bool → Value
  | num : Int → Value
  | str : String → Value
  | arr : List Value → Value
  | obj : List (String × Value) → Value

/-- Coercion of an optional string field into a value (undefined stays
undefined). -/
def optValueStr (x : Option String) : Value :=
  match x with
  | some s => .str s
  | none => .undefinedVal

/-- JavaScript truthiness of an optional string: undefined and the empty
string are falsy. -/
def jsTruthyStr (x : Option String) : Bool :=
  match x with
  | some s => s ≠ ""
  | none => false

/-- JavaScript `x or-else d` on an optional numeric field: undefined and 0
are falsy, so both fall back to the default. -/
def jsOrNat (x : Option Nat) (d : Nat) : Nat :=
  match x with
  | some n => if n = 0 then d else n
  | none => d

/-- JavaScript `x or-else d` on an optional string field: undefined and the
empty string fall back to the default. -/
def jsOrStr (x : Option String) (d : String) : String :=
  match x with
  | some s => if s = "" then d else s
  | none => d

/-- JavaScript `x or-else y` where both sides are optional strings. -/
def jsStrOrOpt (x : Option String) (y : Option String) : Option String :=
  match x with
  | some s => if s = "" then y else some s
  | none => y

/-- How a JavaScript template literal renders an optional string:
undefined prints as the text undefined. -/
def jsTemplateStr (x : Option String) : String :=
  match x with
  | some s => s
  | none => "undefined"

/-- QueueMessage from queue.interface.ts: id, body, attributes, timestamp
(timestamp as milliseconds since epoch; every adapter constructs one). -/
structure QueueMessage where
  id : Option String
  body : Value
  attributes : Option (List (String × Value))
  timestamp : Nat

/-- PublishOptions from queue.interface.ts. -/
structure PublishOptions where
  delaySeconds : Option Nat
  messageAttributes : Option (List (String × Value))

/-- SubscribeOptions from queue.interface.ts (the receive options). -/
structure SubscribeOptions where
  maxNumberOfMessages : Option Nat
  waitTimeSeconds : Option Nat
  visibilityTimeout : Option Nat

/-- The sqs block of QueueModuleOptions from queue.module.ts. Every field is
optional because the ConfigService lookups may come back undefined. -/
structure SqsOptions where
  region : Option String
  endpoint : Option String
  queueUrl : Option String
  accessKeyId : Option String
  secretAccessKey : Option String

/-- The rabbitmq block of QueueModuleOptions from queue.module.ts. -/
structure RabbitOptions where
  url : Option String
  queueName : Option String
  exchangeName : Option String
  routingKey : Option String

/-- QueueModuleOptions from queue.module.ts. -/
structure QueueModuleOptions where
  provider : String
  sqs : Option SqsOptions
  rabbitmq : Option RabbitOptions

/-! ### Mock adapter (mock-queue.service.ts) -/

/-- The private state of MockQueueService: the in-memory message list and
the message-id counter. -/
structure MockState where
  messages : List QueueMessage
  messageIdCounter : Nat

/-- MockQueueService.publish: increments the counter, builds the message,
appends it at the tail of the in-memory list, and returns the new id.
The now argument stands for new Date(). -/
def mockPublish (message : Value) (options : Option PublishOptions)
    (now : Nat) (s : MockState) : String × MockState :=
  let messageIdCounter := s.messageIdCounter + 1
  let messageId := "mock-msg-" ++ toString messageIdCounter
  let queueMessage : QueueMessage :=
    { id := some messageId
      body := message
      attributes := options.bind (fun o => o.messageAttributes)
      timestamp := now }
  (messageId,
    { messages := s.messages ++ [queueMessage]
      messageIdCounter := messageIdCounter })

/-- MockQueueService.receiveMessages: splice(0, maxMessages) where
maxMessages is maxNumberOfMessages or-else 10; returns the spliced-out
front of the list and leaves the rest as the new state. -/
def mockReceiveMessages (options : Option SubscribeOptions)
    (s : MockState) : List QueueMessage × MockState :=
  let maxMessages := jsOrNat (options.bind (fun o => o.maxNumberOfMessages)) 10
  (s.messages.take maxMessages,
    { s with messages := s.messages.drop maxMessages })

/-- MockQueueService.deleteMessage: filters out every message whose id
equals the given id. -/
def mockDeleteMessage (messageId : String) (s : MockState) : MockState :=
  { s with messages := s.messages.filter (fun msg => msg.id != some messageId) }

/-- MockQueueService.getQueueIdentifier: a constant diagnostic string. -/
def mockGetQueueIdentifier : String :=
  "mock-queue (in-memory)"

/-- MockQueueService.close: clears the message list (the counter is kept). -/
def mockClose (s : MockState) : MockState :=
  { s with messages := [] }

/-- One tick of the MockQueueService.subscribe interval: if the list is
nonempty, shift the head, run the handler; on handler success the message
stays removed, on handler failure it is pushed back at the tail. -/
def mockSubscribeTick (handler : QueueMessage → Except String Unit)
    (s : MockState) : MockState :=
  match s.messages with
  | [] => s
  | m :: rest =>
    match handler m with
    | .ok _ => { s with messages := rest }
    | .error _ => { s with messages := rest ++ [m] }

/-! ### SQS adapter (sqs-queue.service.ts) -/

/-- The configuration the SQS adapter hands to new SQSClient: region with
its us-east-1 default, the optional endpoint (only set when truthy), and
credentials only when both keys are present. -/
structure SqsClientConfig where
  region : String
  endpoint : Option String
  credentials : Option (String × String)

/-- The private state of SqsQueueService: the client (undefined when the
configuration was incomplete), the queue url, and the polling flags. -/
structure SqsState where
  sqsClient : Option SqsClientConfig
  queueUrl : Option String
  isPolling : Bool
  pollingInterval : Option Nat

/-- The clientConfig object built inside initializeSqsClient. -/
def buildSqsClientConfig (sqs : SqsOptions) : SqsClientConfig :=
  { region := jsOrStr sqs.region "us-east-1"
    endpoint := if jsTruthyStr sqs.endpoint then sqs.endpoint else none
    credentials :=
      if jsTruthyStr sqs.accessKeyId && jsTruthyStr sqs.secretAccessKey then
        some (sqs.accessKeyId.getD "", sqs.secretAccessKey.getD "")
      else none }

/-- SqsQueueService constructor body (initializeSqsClient): when the queue
url is missing the method returns early and the client stays undefined;
otherwise the client is created. Construction itself never throws. -/
def initSqsClient (options : QueueModuleOptions) : SqsState :=
  match options.sqs with
  | none =>
    { sqsClient := none, queueUrl := none, isPolling := false, pollingInterval := none }
  | some sqs =>
    if jsTruthyStr sqs.queueUrl then
      { sqsClient := some (buildSqsClientConfig sqs)
        queueUrl := sqs.queueUrl
        isPolling := false
        pollingInterval := none }
    else
      { sqsClient := none, queueUrl := none, isPolling := false, pollingInterval := none }

/-- SqsQueueService.publish: rejects when the client is not initialized,
otherwise sends and returns the backend-assigned MessageId, re-throwing a
backend failure. The sendResult argument is the outcome of
sqsClient.send(SendMessageCommand). -/
def sqsPublish (s : SqsState) (sendResult : Except String String) :
    Except String String :=
  if s.sqsClient.isNone then .error "SQS client is not initialized"
  else sendResult

/-- A raw SQS message as returned by ReceiveMessageCommand. -/
structure SqsRawMessage where
  messageId : Option String
  receiptHandle : Option String
  body : Option String
  attributes : List (String × Value)
  messageAttributes : List (String × Value)
  sentTimestamp : Option Nat

/-- SqsQueueService.mapSqsMessage: parses the body as JSON, falling back to
the raw Body verbatim when parsing fails (the string actually parsed is
Body or-else an empty JSON object); the id is the receipt handle; the
timestamp falls back to the local receive time. -/
def mapSqsMessage (parse : String → Option Value) (msg : SqsRawMessage)
    (now : Nat) : QueueMessage :=
  let body : Value :=
    match parse (jsOrStr msg.body "\x7b\x7d") with
    | some v => v
    | none => optValueStr msg.body
  { id := msg.receiptHandle
    body := body
    attributes := some (("messageId", optValueStr msg.messageId)
      :: (msg.attributes ++ msg.messageAttributes))
    timestamp := msg.sentTimestamp.getD now }

/-- The ReceiveMessageCommand the SQS adapter constructs: the option
defaults are 10 messages, 10 seconds of wait, 30 seconds of visibility. -/
structure ReceiveMessageCommand where
  queueUrl : Option String
  maxNumberOfMessages : Nat
  waitTimeSeconds : Nat
  visibilityTimeout : Nat

/-- The command built inside SqsQueueService.receiveMessages. -/
def sqsReceiveCommand (s : SqsState) (options : Option SubscribeOptions) :
    ReceiveMessageCommand :=
  { queueUrl := s.queueUrl
    maxNumberOfMessages := jsOrNat (options.bind (fun o => o.maxNumberOfMessages)) 10
    waitTimeSeconds := jsOrNat (options.bind (fun o => o.waitTimeSeconds)) 10
    visibilityTimeout := jsOrNat (options.bind (fun o => o.visibilityTimeout)) 30 }

/-- SqsQueueService.receiveMessages: rejects when the client is not
initialized; otherwise sends the command, maps response.Messages or-else
the empty list through mapSqsMessage, and re-throws a backend failure. The
backend argument is the behaviour of sqsClient.send(ReceiveMessageCommand):
it may fail, or return an optional list of raw messages. -/
def sqsReceiveMessages (parse : String → Option Value) (s : SqsState)
    (options : Option SubscribeOptions)
    (backend : ReceiveMessageCommand → Except String (Option (List SqsRawMessage)))
    (now : Nat) : Except String (List QueueMessage) :=
  if s.sqsClient.isNone then .error "SQS client is not initialized"
  else
    match backend (sqsReceiveCommand s options) with
    | .ok response => .ok ((response.getD []).map (fun m => mapSqsMessage parse m now))
    | .error e => .error e

/-- SqsQueueService.deleteMessage: rejects when the client is not
initialized, otherwise issues DeleteMessageCommand and re-throws a backend
failure. -/
def sqsDeleteMessage (s : SqsState) (deleteResult : Except String Unit) :
    Except String Unit :=
  if s.sqsClient.isNone then .error "SQS client is not initialized"
  else deleteResult

/-- SqsQueueService.subscribe: rejects when the client is not initialized,
otherwise sets isPolling and starts the poll loop. -/
def sqsSubscribe (s : SqsState) : Except String SqsState :=
  if s.sqsClient.isNone then .error "SQS client is not initialized"
  else .ok { s with isPolling := true }

/-- The per-batch body of the SQS poll loop: each received message is run
through the handler; on success deleteMessage(message.id) is issued, on
failure the error is only logged and no delete happens, so the message
reappears after its visibility timeout. Returns the ids deleted. -/
def sqsPollProcess (handler : QueueMessage → Except String Unit)
    (messages : List QueueMessage) : List (Option String) :=
  messages.filterMap (fun m =>
    match handler m with
    | .ok _ => some m.id
    | .error _ => none)

/-- SqsQueueService.getQueueIdentifier: returns this.queueUrl, which is
undefined when the adapter was constructed without configuration. -/
def sqsGetQueueIdentifier (s : SqsState) : Option String :=
  s.queueUrl

/-- SqsQueueService.close: stops polling, clears the timer, destroys the
client (the client field itself is never reset); it never throws. -/
def sqsClose (s : SqsState) : SqsState :=
  { s with isPolling := false, pollingInterval := none }

/-! ### RabbitMQ adapter (rabbitmq-queue.service.ts) -/

/-- The private state of RabbitMqQueueService: the connected flag driven by
the connection events, the topology names, and whether a connection
manager object exists at all. -/
structure RabbitState where
  isConnected : Bool
  queueName : Option String
  exchangeName : Option String
  routingKey : Option String
  hasConnection : Bool

/-- RabbitMqQueueService constructor body (initializeRabbitMq): when the
url is missing the method logs a warning and returns early, leaving the
service unusable but constructed; otherwise it stores the topology names
and creates the connection manager. The connected flag only becomes true
when the connect event later fires, so it is false right after
construction. -/
def initRabbitMq (options : QueueModuleOptions) : RabbitState :=
  match options.rabbitmq with
  | none =>
    { isConnected := false, queueName := none, exchangeName := none
      routingKey := none, hasConnection := false }
  | some rabbitmq =>
    if jsTruthyStr rabbitmq.url then
      { isConnected := false
        queueName := rabbitmq.queueName
        exchangeName := rabbitmq.exchangeName
        routingKey := rabbitmq.routingKey
        hasConnection := true }
    else
      { isConnected := false, queueName := none, exchangeName := none
        routingKey := none, hasConnection := false }

/-- The connect event handler: sets the connected flag. -/
def rabbitOnConnect (s : RabbitState) : RabbitState :=
  { s with isConnected := true }

/-- The disconnect event handler: clears the connected flag. -/
def rabbitOnDisconnect (s : RabbitState) : RabbitState :=
  { s with isConnected := false }

/-- RabbitMqQueueService.publish: rejects immediately when not connected;
otherwise publishes with a locally generated message id and returns that
id, re-throwing a backend failure. The messageId argument stands for
generateMessageId() (timestamp plus random suffix) and publishResult for
the channelWrapper.publish outcome. -/
def rabbitPublish (s : RabbitState) (messageId : String)
    (publishResult : Except String Unit) : Except String String :=
  if !s.isConnected then .error "RabbitMQ is not connected"
  else
    match publishResult with
    | .ok _ => .ok messageId
    | .error e => .error e

/-- A raw AMQP delivery: properties.messageId, fields.deliveryTag, the
content buffer, the properties and fields records, properties.timestamp. -/
structure RabbitRawMessage where
  messageId : Option String
  deliveryTag : Option Nat
  content : String
  properties : List (String × Value)
  fields : List (String × Value)
  timestamp : Option Nat

/-- RabbitMqQueueService.mapRabbitMqMessage: parses the content as JSON,
falling back to the raw content string verbatim when parsing fails; the id
is properties.messageId or-else the delivery tag rendered as a string; the
timestamp falls back to the local receive time (a zero timestamp is falsy
in the source ternary). -/
def mapRabbitMqMessage (parse : String → Option Value) (msg : RabbitRawMessage)
    (now : Nat) : QueueMessage :=
  let body : Value :=
    match parse msg.content with
    | some v => v
    | none => .str msg.content
  { id := jsStrOrOpt msg.messageId (msg.deliveryTag.map (fun t => toString t))
    body := body
    attributes := some (msg.properties ++ msg.fields)
    timestamp := jsOrNat msg.timestamp now }

/-- RabbitMqQueueService.receiveMessages: rejects immediately when not
connected; otherwise repeatedly channel.get up to maxNumberOfMessages
or-else 10 times, stopping at the first empty get, and maps each raw
delivery. The channel argument is the list of deliveries the broker queue
would hand out in order. -/
def rabbitReceiveMessages (parse : String → Option Value) (s : RabbitState)
    (options : Option SubscribeOptions) (channel : List RabbitRawMessage)
    (now : Nat) : Except String (List QueueMessage) :=
  if !s.isConnected then .error "RabbitMQ is not connected"
  else
    let maxMessages := jsOrNat (options.bind (fun o => o.maxNumberOfMessages)) 10
    .ok ((channel.take maxMessages).map (fun m => mapRabbitMqMessage parse m now))

/-- What the RabbitMQ consumer does with a delivery after the handler ran:
ack, or nack with its two flags (the source nacks with allUpTo false and
requeue true). -/
inductive ConsumeAction where
  | ack : ConsumeAction
  | nack : Bool → Bool → ConsumeAction

/-- The per-delivery body of the consumer installed by
RabbitMqQueueService.subscribe: map the delivery, run the handler; on
success channel.ack, on any error channel.nack(msg, false, true) so the
message is requeued. -/
def rabbitConsumeMessage (parse : String → Option Value)
    (handler : QueueMessage → Except String Unit) (msg : RabbitRawMessage)
    (now : Nat) : ConsumeAction :=
  match handler (mapRabbitMqMessage parse msg now) with
  | .ok _ => .ack
  | .error _ => .nack false true

/-- RabbitMqQueueService.subscribe: rejects immediately when not connected,
otherwise installs the consumer. -/
def rabbitSubscribe (s : RabbitState) : Except String Unit :=
  if !s.isConnected then .error "RabbitMQ is not connected"
  else .ok ()

/-- RabbitMqQueueService.deleteMessage: deletion is handled via
acknowledgment, so this is a logged no-op that always succeeds, in every
state. -/
def rabbitDeleteMessage (s : RabbitState) (messageId : String) :
    Except String Unit :=
  .ok ()

/-- RabbitMqQueueService.getQueueIdentifier: a template literal joining the
exchange and queue names with a slash; undefined fields render as the text
undefined, so the result is always a string. -/
def rabbitGetQueueIdentifier (s : RabbitState) : String :=
  jsTemplateStr s.exchangeName ++ "/" ++ jsTemplateStr s.queueName

/-- RabbitMqQueueService.close: closes the channel and connection inside a
try-catch that swallows every error, then clears the connected flag; it
never throws. -/
def rabbitClose (s : RabbitState) : RabbitState :=
  { s with isConnected := false }

/-! ### Composite adapter (composite-queue.service.ts) -/

/-- CompositeQueueService.publish: settles both child publishes (SQS first,
RabbitMQ second), collects the fulfilled ids in that order, fails with the
all-backends-failed error only when no child succeeded, and otherwise joins
the successful ids with a comma. -/
def compositePublish (sqsResult : Except String String)
    (rabbitResult : Except String String) : Except String String :=
  let results := [sqsResult, rabbitResult]
  let successfulIds := results.filterMap (fun r =>
    match r with
    | .ok v => some v
    | .error _ => none)
  if successfulIds.length = 0 then
    .error "Failed to publish message to any queue provider"
  else
    .ok (String.intercalate "," successfulIds)

/-- The catch attached to each child receive inside
CompositeQueueService.receiveMessages: a rejected child degrades to an
empty contribution. -/
def catchWithEmpty (r : Except String (List QueueMessage)) : List QueueMessage :=
  match r with
  | .ok msgs => msgs
  | .error _ => []

/-- CompositeQueueService.receiveMessages: awaits both child receives, each
guarded by catchWithEmpty, and returns the SQS messages followed by the
RabbitMQ messages. The call itself has no failure path. -/
def compositeReceiveMessages (sqsResult : Except String (List QueueMessage))
    (rabbitResult : Except String (List QueueMessage)) : List QueueMessage :=
  catchWithEmpty sqsResult ++ catchWithEmpty rabbitResult

/-- CompositeQueueService.deleteMessage: settles both child deletes and
ignores their outcomes; it always succeeds. -/
def compositeDeleteMessage (sqsResult : Except String Unit)
    (rabbitResult : Except String Unit) : Except String Unit :=
  .ok ()

/-- CompositeQueueService.getQueueIdentifier: a template literal wrapping
both child identifiers; the SQS identifier may be undefined and then
renders as the text undefined. -/
def compositeGetQueueIdentifier (sqsState : SqsState) (rabbitState : RabbitState) :
    String :=
  "composite[" ++ jsTemplateStr (sqsGetQueueIdentifier sqsState) ++ ","
    ++ rabbitGetQueueIdentifier rabbitState ++ "]"

/-- CompositeQueueService.close: closes both children in parallel; neither
child close can fail, so neither can the composite close. -/
def compositeClose (sqsState : SqsState) (rabbitState : RabbitState) :
    SqsState × RabbitState :=
  (sqsClose sqsState, rabbitClose rabbitState)

/-! ### Backend selector (queue.module.ts) -/

/-- The four adapters the QUEUE_SERVICE factory can return. -/
inductive AdapterKind where
  | sqs : AdapterKind
  | rabbitmq : AdapterKind
  | both : AdapterKind
  | mock : AdapterKind
deriving DecidableEq

/-- The QUEUE_SERVICE factory switch from queue.module.ts: maps the
configured provider name to an adapter and throws on any other name. The
factory runs while the module is being constructed, so an unknown name is
a startup failure. -/
def selectQueueService (provider : String) : Except String AdapterKind :=
  if provider = "sqs" then .ok .sqs
  else if provider = "rabbitmq" then .ok .rabbitmq
  else if provider = "both" then .ok .both
  else if provider = "mock" then .ok .mock
  else .error ("Unknown queue provider: " ++ provider)

/-! ### Shared concrete states for the theorems -/

/-- Module options with both backend blocks absent. -/
def unconfiguredOptions : QueueModuleOptions :=
  { provider := "both", sqs := none, rabbitmq := none }

/-- The SQS adapter state right after construction without configuration. -/
def unconfiguredSqsState : SqsState :=
  initSqsClient unconfiguredOptions

/-- The RabbitMQ adapter state right after construction without
configuration. -/
def unconfiguredRabbitState : RabbitState :=
  initRabbitMq unconfiguredOptions

/-- A fully configured pair of module options. -/
def sampleOptions : QueueModuleOptions :=
  { provider := "both"
    sqs := some
      { region := some "us-east-1", endpoint := none, queueUrl := some "u"
        accessKeyId := none, secretAccessKey := none }
    rabbitmq := some
      { url := some "amqp://localhost:5672", queueName := some "test-queue"
        exchangeName := some "test-exchange", routingKey := some "test-routing-key" } }

/-- The SQS adapter state after construction with configuration. -/
def configuredSqsState : SqsState :=
  initSqsClient sampleOptions

/-- The RabbitMQ adapter state after construction with configuration and a
fired connect event. -/
def connectedRabbitState : RabbitState :=
  rabbitOnConnect (initRabbitMq sampleOptions)

/-! ### Theorems -/

/-- Claim C1: composite publish succeeds whenever at least one child
succeeds, returning the successful ids joined with a comma with the SQS id
first; it fails with the all-backends-failed error exactly when both
children failed. -/
theorem compositePublish_spec (sqsResult rabbitResult : Except String String) :
    (∀ sid rid, sqsResult = .ok sid → rabbitResult = .ok rid →
      compositePublish sqsResult rabbitResult = .ok (sid ++ "," ++ rid))
  ∧ (∀ sid e, sqsResult = .ok sid → rabbitResult = .error e →
      compositePublish sqsResult rabbitResult = .ok sid)
  ∧ (∀ e rid, sqsResult = .error e → rabbitResult = .ok rid →
      compositePublish sqsResult rabbitResult = .ok rid)
  ∧ ((∃ e, compositePublish sqsResult rabbitResult = .error e) ↔
      ((∃ e₁, sqsResult = .error e₁) ∧ (∃ e₂, rabbitResult = .error e₂)))
  ∧ ((∃ e₁, sqsResult = .error e₁) → (∃ e₂, rabbitResult = .error e₂) →
      compositePublish sqsResult rabbitResult
        = .error "Failed to publish message to any queue provider") := by
  refine ⟨?_, ?_, ?_, ?_, ?_⟩
  · rintro sid rid rfl rfl; rfl
  · rintro sid e rfl rfl; rfl
  · rintro e rid rfl rfl; rfl
  · cases sqsResult <;> cases rabbitResult <;>
      simp [compositePublish, String.intercalate]
  · rintro ⟨e₁, rfl⟩ ⟨e₂, rfl⟩; rfl

/-- Claim C1 witness: both children succeeding yields the two ids joined
with a comma. -/
theorem compositePublish_spec_witness :
    compositePublish (.ok "sqs-id") (.ok "rmq-id") = .ok ("sqs-id" ++ "," ++ "rmq-id") :=
  (compositePublish_spec (.ok "sqs-id") (.ok "rmq-id")).1 "sqs-id" "rmq-id" rfl rfl

/-- Claim C2: composite receive never fails (its type has no failure path),
replaces a failed child by an empty contribution, concatenates the SQS
messages before the RabbitMQ messages, and its length is the sum of the two
contributions, so one child failing never shrinks the other contribution. -/
theorem compositeReceiveMessages_spec
    (sqsResult rabbitResult : Except String (List QueueMessage)) :
    (compositeReceiveMessages sqsResult rabbitResult).length
      = (catchWithEmpty sqsResult).length + (catchWithEmpty rabbitResult).length
  ∧ (∀ ms₁ ms₂, sqsResult = .ok ms₁ → rabbitResult = .ok ms₂ →
      compositeReceiveMessages sqsResult rabbitResult = ms₁ ++ ms₂)
  ∧ (∀ ms₁ e, sqsResult = .ok ms₁ → rabbitResult = .error e →
      compositeReceiveMessages sqsResult rabbitResult = ms₁)
  ∧ (∀ e ms₂, sqsResult = .error e → rabbitResult = .ok ms₂ →
      compositeReceiveMessages sqsResult rabbitResult = ms₂) := by
  refine ⟨List.length_append _ _, ?_, ?_, ?_⟩
  · rintro ms₁ ms₂ rfl rfl; rfl
  · rintro ms₁ e rfl rfl
    simp [compositeReceiveMessages, catchWithEmpty]
  · rintro e ms₂ rfl rfl
    simp [compositeReceiveMessages, catchWithEmpty]

/-- Claim C2 witness: a failed SQS child leaves the RabbitMQ contribution
intact. -/
theorem compositeReceiveMessages_spec_witness :
    compositeReceiveMessages (.error "boom")
      (.ok [{ id := some "m1", body := .null, attributes := none, timestamp := 0 }])
      = [{ id := some "m1", body := .null, attributes := none, timestamp := 0 }] :=
  (compositeReceiveMessages_spec (.error "boom")
      (.ok [{ id := some "m1", body := .null, attributes := none, timestamp := 0 }])).2.2.2
    "boom" _ rfl rfl

/-- Claim C3: the factory switch is exhaustive over the four known provider
names, returning the matching adapter for each, and throws at module
construction time for every other name. -/
theorem selectQueueService_spec :
    selectQueueService "sqs" = .ok .sqs
  ∧ selectQueueService "rabbitmq" = .ok .rabbitmq
  ∧ selectQueueService "both" = .ok .both
  ∧ selectQueueService "mock" = .ok .mock
  ∧ ∀ p : String, p ∉ (["sqs", "rabbitmq", "both", "mock"] : List String) →
      selectQueueService p = .error ("Unknown queue provider: " ++ p) := by
  refine ⟨rfl, rfl, rfl, rfl, ?_⟩
  intro p hp
  simp only [List.mem_cons, List.not_mem_nil, or_false, not_or] at hp
  obtain ⟨h₁, h₂, h₃, h₄⟩ := hp
  simp [selectQueueService, h₁, h₂, h₃, h₄]

/-- Claim C3 witness: an unknown provider name is rejected with the
unknown-provider error. -/
theorem selectQueueService_spec_witness :
    selectQueueService "kafka" = .error ("Unknown queue provider: " ++ "kafka") :=
  selectQueueService_spec.2.2.2.2 "kafka" (by decide)

/-- Claim C10: mock receive returns exactly the first min(max, length)
messages of the in-memory list in publish order, where the effective max
defaults to 10 when the option is absent or zero; the remaining state is
exactly the suffix, nothing else is added, removed or reordered, and the
id counter is untouched. -/
theorem mockReceiveMessages_spec (options : Option SubscribeOptions)
    (s : MockState) :
    (mockReceiveMessages options s).1
      = s.messages.take (jsOrNat (options.bind (fun o => o.maxNumberOfMessages)) 10)
  ∧ (mockReceiveMessages options s).2.messages
      = s.messages.drop (jsOrNat (options.bind (fun o => o.maxNumberOfMessages)) 10)
  ∧ (mockReceiveMessages options s).1.length
      = min (jsOrNat (options.bind (fun o => o.maxNumberOfMessages)) 10)
          s.messages.length
  ∧ (mockReceiveMessages options s).1 ++ (mockReceiveMessages options s).2.messages
      = s.messages
  ∧ (mockReceiveMessages options s).2.messageIdCounter = s.messageIdCounter
  ∧ ((options.bind (fun o => o.maxNumberOfMessages) = none
        ∨ options.bind (fun o => o.maxNumberOfMessages) = some 0) →
      jsOrNat (options.bind (fun o => o.maxNumberOfMessages)) 10 = 10) := by
  refine ⟨rfl, rfl, ?_, List.take_append_drop _ _, rfl, ?_⟩
  · simp [mockReceiveMessages, List.length_take]
  · rintro (h | h) <;> simp [jsOrNat, h]

/-- Claim C10 witness: receiving with no options from a two-message queue
drains both messages and empties the queue. -/
theorem mockReceiveMessages_spec_witness :
    (mockReceiveMessages none
        { messages := [{ id := some "mock-msg-1", body := .null, attributes := none, timestamp := 0 }]
          messageIdCounter := 1 }).1
      = [{ id := some "mock-msg-1", body := .null, attributes := none, timestamp := 0 }]
    ∧ jsOrNat ((none : Option SubscribeOptions).bind (fun o => o.maxNumberOfMessages)) 10 = 10 :=
  ⟨(mockReceiveMessages_spec none
      { messages := [{ id := some "mock-msg-1", body := .null, attributes := none, timestamp := 0 }]
        messageIdCounter := 1 }).1,
   (mockReceiveMessages_spec none
      { messages := [], messageIdCounter := 0 }).2.2.2.2.2 (Or.inl rfl)⟩

/-- Claim C4 counterexample: in the unconfigured state the RabbitMQ
adapter deleteMessage succeeds as a no-op instead of failing, so not every
operation fails with a not-configured condition. -/
theorem rabbitDeleteMessage_unconfigured_ok :
    rabbitDeleteMessage unconfiguredRabbitState "msg-1" = .ok () :=
  rfl

/-- Claim C4 amended: both concrete adapters are constructible without
configuration (construction is a total function that just leaves the
client absent), and in that state publish, receiveMessages and subscribe
fail with the not-initialized or not-connected error, as does the SQS
deleteMessage; the RabbitMQ deleteMessage alone is a documented no-op that
succeeds. -/
theorem unconfigured_adapter_spec :
    unconfiguredSqsState.sqsClient = none
  ∧ unconfiguredRabbitState.hasConnection = false
  ∧ (∀ sendResult,
      sqsPublish unconfiguredSqsState sendResult
        = .error "SQS client is not initialized")
  ∧ (∀ parse options backend now,
      sqsReceiveMessages parse unconfiguredSqsState options backend now
        = .error "SQS client is not initialized")
  ∧ sqsSubscribe unconfiguredSqsState = .error "SQS client is not initialized"
  ∧ (∀ deleteResult,
      sqsDeleteMessage unconfiguredSqsState deleteResult
        = .error "SQS client is not initialized")
  ∧ (∀ messageId publishResult,
      rabbitPublish unconfiguredRabbitState messageId publishResult
        = .error "RabbitMQ is not connected")
  ∧ (∀ parse options channel now,
      rabbitReceiveMessages parse unconfiguredRabbitState options channel now
        = .error "RabbitMQ is not connected")
  ∧ rabbitSubscribe unconfiguredRabbitState = .error "RabbitMQ is not connected"
  ∧ (∀ messageId,
      rabbitDeleteMessage unconfiguredRabbitState messageId = .ok ()) :=
  ⟨rfl, rfl, fun _ => rfl, fun _ _ _ _ => rfl, rfl, fun _ => rfl,
    fun _ _ => rfl, fun _ _ _ _ => rfl, rfl, fun _ => rfl⟩

/-- Claim C5 counterexample: in the unconfigured state the SQS adapter
getQueueIdentifier returns undefined (modelled as none), not a string. -/
theorem sqsGetQueueIdentifier_unconfigured_none :
    sqsGetQueueIdentifier unconfiguredSqsState = none :=
  rfl

/-- Claim C5 amended: getQueueIdentifier never throws on any adapter in any
state (each is a total function); the RabbitMQ, mock and composite
adapters always return a nonempty string, and the SQS adapter returns a
string whenever its queue url was configured, returning undefined only in
the unconfigured state. -/
theorem getQueueIdentifier_spec :
    (∀ s : RabbitState, 0 < (rabbitGetQueueIdentifier s).length)
  ∧ 0 < mockGetQueueIdentifier.length
  ∧ (∀ sq rb, 0 < (compositeGetQueueIdentifier sq rb).length)
  ∧ (∀ s : SqsState, s.queueUrl.isSome = true →
      (sqsGetQueueIdentifier s).isSome = true) := by
  refine ⟨?_, by decide, ?_, fun s h => h⟩
  · intro s
    simp [rabbitGetQueueIdentifier, String.length_append]
    exact Or.inl (Or.inr (by decide))
  · intro sq rb
    simp [compositeGetQueueIdentifier, rabbitGetQueueIdentifier,
      String.length_append]
    exact Or.inl (Or.inl (Or.inl (Or.inl (by decide))))

/-- Claim C5 witness: the configured SQS adapter returns its queue url as
the identifier. -/
theorem getQueueIdentifier_spec_witness :
    (sqsGetQueueIdentifier configuredSqsState).isSome = true :=
  getQueueIdentifier_spec.2.2.2 configuredSqsState rfl

/-- Claim C6: close is idempotent on every adapter: a second close of an
already closed state is exactly the first closed state, with no failure
path (each close is a total function on states). -/
theorem close_idempotent_spec :
    (∀ s : MockState, mockClose (mockClose s) = mockClose s)
  ∧ (∀ s : SqsState, sqsClose (sqsClose s) = sqsClose s)
  ∧ (∀ s : RabbitState, rabbitClose (rabbitClose s) = rabbitClose s)
  ∧ (∀ sq rb, compositeClose (compositeClose sq rb).1 (compositeClose sq rb).2
      = compositeClose sq rb) :=
  ⟨fun _ => rfl, fun _ => rfl, fun _ => rfl, fun _ _ => rfl⟩

/-- Claim C7: receiving from a queue with no available messages returns an
empty list and does not fail, on every adapter: the mock with an empty
in-memory list, the configured SQS adapter when the backend reports no
messages (with or without the Messages field), the connected RabbitMQ
adapter on an empty channel, and the composite of two empty children. -/
theorem receive_empty_spec (parse : String → Option Value) :
    (∀ options c,
      (mockReceiveMessages options { messages := [], messageIdCounter := c }).1 = [])
  ∧ (∀ s : SqsState, s.sqsClient.isSome = true →
      ∀ options backend now,
        (∀ cmd, backend cmd = .ok none ∨ backend cmd = .ok (some [])) →
        sqsReceiveMessages parse s options backend now = .ok [])
  ∧ (∀ s : RabbitState, s.isConnected = true →
      ∀ options now, rabbitReceiveMessages parse s options [] now = .ok [])
  ∧ compositeReceiveMessages (.ok []) (.ok []) = ([] : List QueueMessage) := by
  refine ⟨?_, ?_, ?_, rfl⟩
  · intro options c
    simp [mockReceiveMessages]
  · intro s h options backend now hb
    cases hc : s.sqsClient with
    | none => rw [hc] at h; simp at h
    | some c =>
      rcases hb (sqsReceiveCommand s options) with h₁ | h₁ <;>
        simp [sqsReceiveMessages, hc, h₁]
  · intro s h options now
    simp [rabbitReceiveMessages, h]

/-- Claim C7 witness: the configured SQS adapter and the connected RabbitMQ
adapter both return an empty list from an empty queue. -/
theorem receive_empty_spec_witness :
    sqsReceiveMessages (fun _ => none) configuredSqsState none
      (fun _ => .ok none) 0 = .ok []
  ∧ rabbitReceiveMessages (fun _ => none) connectedRabbitState none [] 0 = .ok [] :=
  ⟨(receive_empty_spec (fun _ => none)).2.1 configuredSqsState rfl none
      (fun _ => .ok none) 0 (fun _ => Or.inl rfl),
   (receive_empty_spec (fun _ => none)).2.2.1 connectedRabbitState rfl none 0⟩

/-- Claim C8: when JSON parsing of a received payload fails, both mappers
surface the raw payload verbatim as the body instead of raising; the
mappers are total functions, so mapping never fails. -/
theorem malformed_payload_spec (parse : String → Option Value) :
    (∀ msg : RabbitRawMessage, ∀ now, parse msg.content = none →
      (mapRabbitMqMessage parse msg now).body = .str msg.content)
  ∧ (∀ msg : SqsRawMessage, ∀ now b, msg.body = some b → b ≠ "" →
      parse b = none → (mapSqsMessage parse msg now).body = .str b) := by
  constructor
  · intro msg now h
    simp [mapRabbitMqMessage, h]
  · intro msg now b hb hne hp
    simp [mapSqsMessage, jsOrStr, hb, hne, hp, optValueStr]

/-- Claim C8 witness: a payload that fails to parse comes back verbatim as
the body from both mappers. -/
theorem malformed_payload_spec_witness :
    (mapRabbitMqMessage (fun _ => none)
      { messageId := some "m1", deliveryTag := some 1, content := "not-json"
        properties := [], fields := [], timestamp := none } 0).body = .str "not-json"
  ∧ (mapSqsMessage (fun _ => none)
      { messageId := some "m2", receiptHandle := some "rh", body := some "not-json"
        attributes := [], messageAttributes := [], sentTimestamp := none } 0).body
      = .str "not-json" :=
  ⟨(malformed_payload_spec (fun _ => none)).1 _ 0 rfl,
   (malformed_payload_spec (fun _ => none)).2 _ 0 "not-json" rfl (by decide) rfl⟩

/-- Claim C9: in every adapter subscribe loop, a message whose handler
succeeded is acknowledged or deleted, and a message whose handler failed
is made re-deliverable: RabbitMQ acks on success and nacks with requeue on
failure, the SQS loop issues a delete exactly for the successful messages
and leaves failed ones undeleted, and the mock removes the message on
success and pushes it back onto the queue on failure, never dropping it. -/
theorem handler_redelivery_spec (parse : String → Option Value) :
    (∀ handler msg now, handler (mapRabbitMqMessage parse msg now) = .ok () →
      rabbitConsumeMessage parse handler msg now = .ack)
  ∧ (∀ handler msg now e, handler (mapRabbitMqMessage parse msg now) = .error e →
      rabbitConsumeMessage parse handler msg now = .nack false true)
  ∧ (∀ handler ms₁ ms₂ m, handler m = .ok () →
      sqsPollProcess handler (ms₁ ++ m :: ms₂)
        = sqsPollProcess handler ms₁ ++ m.id :: sqsPollProcess handler ms₂)
  ∧ (∀ handler ms₁ ms₂ m e, handler m = .error e →
      sqsPollProcess handler (ms₁ ++ m :: ms₂)
        = sqsPollProcess handler ms₁ ++ sqsPollProcess handler ms₂)
  ∧ (∀ handler m rest c, handler m = .ok () →
      (mockSubscribeTick handler
        { messages := m :: rest, messageIdCounter := c }).messages = rest)
  ∧ (∀ handler m rest c e, handler m = .error e →
      (mockSubscribeTick handler
          { messages := m :: rest, messageIdCounter := c }).messages = rest ++ [m]
      ∧ m ∈ (mockSubscribeTick handler
          { messages := m :: rest, messageIdCounter := c }).messages) := by
  refine ⟨?_, ?_, ?_, ?_, ?_, ?_⟩
  · intro handler msg now h
    simp [rabbitConsumeMessage, h]
  · intro handler msg now e h
    simp [rabbitConsumeMessage, h]
  · intro handler ms₁ ms₂ m h
    simp [sqsPollProcess, List.filterMap_append, List.filterMap_cons, h]
  · intro handler ms₁ ms₂ m e h
    simp [sqsPollProcess, List.filterMap_append, List.filterMap_cons, h]
  · intro handler m rest c h
    simp [mockSubscribeTick, h]
  · intro handler m rest c e h
    refine ⟨by simp [mockSubscribeTick, h], ?_⟩
    simp [mockSubscribeTick, h]

/-- Claim C9 witness: a failing handler makes RabbitMQ nack with requeue
and makes the SQS loop issue no delete for the message. -/
theorem handler_redelivery_spec_witness :
    rabbitConsumeMessage (fun _ => none) (fun _ => .error "boom")
      { messageId := some "m1", deliveryTag := some 1, content := "hi"
        properties := [], fields := [], timestamp := none } 0 = .nack false true
  ∧ sqsPollProcess (fun _ => .error "boom")
      [{ id := some "rh", body := .null, attributes := none, timestamp := 0 }] = [] :=
  ⟨(handler_redelivery_spec (fun _ => none)).2.1 (fun _ => .error "boom") _ 0 "boom" rfl,
   (handler_redelivery_spec (fun _ => none)).2.2.2.1 (fun _ => .error "boom") [] []
     { id := some "rh", body := .null, attributes := none, timestamp := 0 } "boom" rfl⟩

end MessageQueue
